import Mathlib

/-!
# Shallow embedding of the Antenna_Aligner control-and-telemetry gateway

This file embeds the core logic of `scripts/pi_tcp_server.py` and
`scripts/pi_websocket_server.py`:

* the TCP command handler (`ThreadedTCPHandler.handle`), one line at a time;
* Python's `shlex.split` (POSIX mode) as used for `RUN` argument tokenization;
* the job registry (`JOBS` dict) with `dict.__setitem__` / `dict.pop(k, None)`;
* the reaper thread body (`reap_jobs`), one cycle at a time;
* the per-message bodies of both WebSocket handlers;
* the broadcast loop body (`broadcast_signal_data`), one cycle at a time.

External effects are passed in as explicit parameters: spawning a subprocess
is a function `List String → Except String Nat` (error message or pid), a
process's non-blocking exit poll is a function `Nat → Option Int`, and the
success of a WebSocket send is a function on client identifiers. Client
connections are identified by `Nat`; the Python `set` of clients and the
`dict` of jobs are modelled as lists (the dict as an association list).
-/

/-- Python's whitespace characters as used by `str.strip()`. -/
def pyWS (c : Char) : Bool :=
  c == ' ' || c == '\t' || c == '\n' || c == '\r' || c == '\x0b' || c == '\x0c'

/-- Model of Python `str.upper()` for the ASCII command keywords involved
(character-wise uppercasing). -/
def pyUpper (s : String) : String := ⟨s.data.map Char.toUpper⟩

/-- Model of Python `str.startswith(p)`. -/
def pyStartsWith (s p : String) : Bool := p.data.isPrefixOf s.data

/-- Model of Python slicing `s[n:]` (by code point). -/
def pyDrop (s : String) (n : Nat) : String := ⟨s.data.drop n⟩

/-- Model of Python `str.strip()`: remove leading and trailing whitespace. -/
def pyStrip (s : String) : String :=
  ⟨((s.data.dropWhile pyWS).reverse.dropWhile pyWS).reverse⟩

/-! ## shlex.split (POSIX mode)

`pi_tcp_server.py` line 151 calls `shlex.split(args_part)`. We model the
documented POSIX behaviour of that library call: whitespace separates
tokens; single quotes protect everything up to the next single quote;
double quotes protect everything except `\"` and `\\` escapes; outside
quotes a backslash escapes the next character; an unterminated quote or a
trailing escape raises `ValueError`, modelled as `none`. -/

/-- Lexer mode: outside quotes, inside single quotes, inside double quotes. -/
inductive ShMode | out | sq | dq
deriving DecidableEq, Repr

/-- shlex whitespace (`shlex.whitespace = " \t\r\n"`). -/
def shWS (c : Char) : Bool := c == ' ' || c == '\t' || c == '\r' || c == '\n'

/-- The single-quote character. -/
def sqChar : Char := Char.ofNat 39

/-- The double-quote character. -/
def dqChar : Char := Char.ofNat 34

/-- The backslash character. -/
def bsChar : Char := Char.ofNat 92

/-- Close off the current token (if one is in progress) onto the accumulator.
The token's characters are held in reverse order while scanning. -/
def flushTok : Option (List Char) → List String → List String
  | none, acc => acc
  | some t, acc => String.mk t.reverse :: acc

/-- Core state machine of `shlex.split` (POSIX mode). `tok` is the current
token in reverse (`none` when no token is in progress — this distinguishes
`''`, which yields an empty token, from plain whitespace). `acc` holds the
finished tokens in reverse. Returns `none` where the library raises
`ValueError` (unbalanced quote, dangling escape). -/
def shlexCore : ShMode → Option (List Char) → List String → List Char → Option (List String)
  | .out, tok, acc, [] => some (flushTok tok acc).reverse
  | .sq, _, _, [] => none
  | .dq, _, _, [] => none
  | .out, tok, acc, c :: rest =>
      if shWS c then shlexCore .out none (flushTok tok acc) rest
      else if c = sqChar then shlexCore .sq (some (tok.getD [])) acc rest
      else if c = dqChar then shlexCore .dq (some (tok.getD [])) acc rest
      else if c = bsChar then
        match rest with
        | [] => none
        | c2 :: rest2 => shlexCore .out (some (c2 :: tok.getD [])) acc rest2
      else shlexCore .out (some (c :: tok.getD [])) acc rest
  | .sq, tok, acc, c :: rest =>
      if c = sqChar then shlexCore .out tok acc rest
      else shlexCore .sq (some (c :: tok.getD [])) acc rest
  | .dq, tok, acc, c :: rest =>
      if c = dqChar then shlexCore .out tok acc rest
      else if c = bsChar then
        match rest with
        | [] => none
        | c2 :: rest2 =>
          if c2 = dqChar || c2 = bsChar then
            shlexCore .dq (some (c2 :: tok.getD [])) acc rest2
          else
            shlexCore .dq (some (c2 :: bsChar :: tok.getD [])) acc rest2
      else shlexCore .dq (some (c :: tok.getD [])) acc rest

/-- Model of Python `shlex.split` (POSIX mode); `none` models `ValueError`. -/
def shlexSplit (s : String) : Option (List String) := shlexCore .out none [] s.data

/-! ## Job registry (`JOBS` dict) -/

/-- The `JOBS` dict, mapping pid to the stored command-line string. The
`subprocess.Popen` handle is external; its only observable here, the
non-blocking `poll()`, is supplied to the reaper as a function on pids. -/
abbrev Registry := List (Nat × String)

/-- Python dict assignment `JOBS[k] = v`: replace in place if the key is
present, otherwise append (insertion order preserved). -/
def dictInsert (d : Registry) (k : Nat) (v : String) : Registry :=
  if d.any (fun p => p.1 == k) then
    d.map (fun p => if p.1 == k then (k, v) else p)
  else d ++ [(k, v)]

/-- Python `JOBS.pop(k, None)`: remove the key if present; absent key is a
no-op (the default swallows `KeyError`). -/
def dictPop (d : Registry) (k : Nat) : Registry := d.filter (fun p => p.1 != k)

/-- The STATUS response lines (`pi_tcp_server.py` lines 129-137):
`NO_JOBS` when the registry is empty, else one `PID:<pid> CMD:<cmdline>`
line per job. -/
def statusLines (jobs : Registry) : List String :=
  if jobs.isEmpty then ["NO_JOBS"]
  else jobs.map (fun p => "PID:" ++ toString p.1 ++ " CMD:" ++ p.2)

/-! ## TCP command handler (`ThreadedTCPHandler.handle`) -/

/-- What the per-connection loop does after processing one line:
continue reading (`next`), break after `BYE` (`closed`), or abort with an
uncaught exception that the socketserver framework turns into a closed
connection (`crashed`). -/
inductive ConnAction | next | closed | crashed
deriving DecidableEq, Repr

/-- Result of processing one stripped, non-empty command line: the response
lines written to this connection (without the trailing newline), the job
registry afterwards, and what the connection loop does next. -/
structure LineResult where
  responses : List String
  registry : Registry
  action : ConnAction
deriving DecidableEq, Repr

/-- The `RUN` branch (`pi_tcp_server.py` lines 143-167), given the already
stripped argument part `args_part`. `spawn` models `subprocess.Popen`:
`.error e` models a raised exception with message `e`, `.ok pid` a
successful spawn. An unbalanced quote makes `shlex.split` raise an
uncaught `ValueError`: no response is written, the registry is untouched,
and the handler crashes. -/
def runCommand (argsPart : String) (jobs : Registry)
    (spawn : List String → Except String Nat) : LineResult :=
  if argsPart = "" then ⟨["ERROR: missing args"], jobs, .next⟩
  else
    match shlexSplit argsPart with
    | none => ⟨[], jobs, .crashed⟩
    | some parts =>
      let cmdList := ["python3", "scripts/znle_pyvisa.py"] ++ parts
      match spawn cmdList with
      | .error exc => ⟨["ERROR: failed to start: " ++ exc], jobs, .next⟩
      | .ok pid =>
        ⟨["STARTED " ++ toString pid],
         dictInsert jobs pid (String.intercalate " " cmdList), .next⟩

/-- One iteration of the command loop of `ThreadedTCPHandler.handle`
(`pi_tcp_server.py` lines 113-173) on a stripped, non-empty line `cmd`.
Branches in source order: `PING` (case-insensitive), `QUIT`/`EXIT`,
`STATUS`, `RUN ` (case-sensitive, mandatory trailing space), unknown. -/
def handleLine (cmd : String) (jobs : Registry)
    (spawn : List String → Except String Nat) : LineResult :=
  if pyUpper cmd = "PING" then ⟨["PONG"], jobs, .next⟩
  else if pyUpper cmd = "QUIT" ∨ pyUpper cmd = "EXIT" then ⟨["BYE"], jobs, .closed⟩
  else if pyUpper cmd = "STATUS" then ⟨statusLines jobs, jobs, .next⟩
  else if pyStartsWith cmd "RUN " then
    runCommand (pyStrip (pyDrop cmd 4)) jobs spawn
  else ⟨["ERROR: unknown command"], jobs, .next⟩

/-- The whole per-connection loop of `handle` over a list of received raw
lines: each line is stripped, empty lines are skipped, `QUIT`/`EXIT` stops
the loop, and an uncaught exception aborts it (remaining lines are never
processed). Returns all responses written to this connection and the final
registry. -/
def connLoop (spawn : List String → Except String Nat) :
    List String → Registry → List String × Registry
  | [], jobs => ([], jobs)
  | raw :: rest, jobs =>
    let line := pyStrip raw
    if line = "" then connLoop spawn rest jobs
    else
      let r := handleLine line jobs spawn
      match r.action with
      | .next =>
        let k := connLoop spawn rest r.registry
        (r.responses ++ k.1, k.2)
      | .closed => (r.responses, r.registry)
      | .crashed => (r.responses, r.registry)

/-! ## Reaper (`reap_jobs`) -/

/-- One cycle of the reaper loop (`pi_tcp_server.py` lines 192-202), run
under `JOBS_LOCK` once per second: first sweep the registry collecting the
pids whose non-blocking `poll()` reports an exit status (`poll pid ≠ none`),
then pop exactly those pids. `poll` is the processes' exit status at the
instant of this cycle. -/
def reapCycle (jobs : Registry) (poll : Nat → Option Int) : Registry :=
  let toDelete := (jobs.filter (fun p => (poll p.1).isSome)).map Prod.fst
  toDelete.foldl dictPop jobs

/-! ## WebSocket handlers

Two WebSocket per-message handlers exist in the repository:

* `websocket_handler` in `pi_websocket_server.py` (lines 49-64): catches
  `json.JSONDecodeError` and replies `{"error": "Invalid JSON"}`; other
  exceptions (e.g. a valid JSON non-object, where `data.get` raises) are
  only logged; `PING` and `GET_RSL` are answered.
* `websocket_handler` in `pi_tcp_server.py` (lines 228-237): every
  exception, including a JSON decode failure, falls into a generic
  `except Exception` that only logs — no error reply is ever sent; only
  `PING` is answered.

`json.loads` and `data.get("cmd", "")` are library calls; their outcome on
one inbound message is abstracted as `WsParse`. The handlers' loop bodies
never touch the client set `WS_CLIENTS` (it is mutated only on connect and
in the disconnect `finally` block), which the step functions make explicit
by threading the client set through unchanged. Replies go only to the
connection that sent the message (`websocket.send`). -/

/-- Outcome of `json.loads(message)` followed by `data.get("cmd", "")` on
one inbound frame: `bad` = not valid JSON (`json.loads` raises),
`nonObject` = valid JSON but not an object (`data.get` raises
`AttributeError`), `obj c` = a JSON object whose `cmd` field is the string
`c` (a missing or non-string `cmd` behaves as a string that is neither
`PING` nor `GET_RSL`). -/
inductive WsParse | bad | nonObject | obj (cmd : String)
deriving DecidableEq, Repr

/-- A reply frame sent on the originating connection. `rslReading` is the
`GET_RSL` answer, whose payload (a freshly sampled value and the clock)
is external and nondeterministic. -/
inductive WsReply | pong | invalidJson | rslReading
deriving DecidableEq, Repr

/-- Exact wire text (`json.dumps` output) of the deterministic replies;
`rslReading`'s text depends on the random sample and clock, hence `none`. -/
def wsReplyWire : WsReply → Option String
  | .pong => some "\x7b\"response\": \"PONG\"\x7d"
  | .invalidJson => some "\x7b\"error\": \"Invalid JSON\"\x7d"
  | .rslReading => none

/-- Per-message body of `websocket_handler` in `pi_tcp_server.py`
(lines 228-237): a decode failure (or any other exception) is swallowed by
the generic `except Exception` handler, which only prints — no reply. -/
def wsHandleTcp : WsParse → List WsReply
  | .bad => []
  | .nonObject => []
  | .obj c => if c = "PING" then [.pong] else []

/-- Per-message body of `websocket_handler` in `pi_websocket_server.py`
(lines 49-64): a JSON decode failure is answered with the
`Invalid JSON` error frame; a non-object decode falls into the generic
handler (log only); `PING` and `GET_RSL` are answered. -/
def wsHandleWs : WsParse → List WsReply
  | .bad => [.invalidJson]
  | .nonObject => []
  | .obj c =>
    if c = "PING" then [.pong]
    else if c = "GET_RSL" then [.rslReading]
    else []

/-- One message-processing step of the `pi_tcp_server.py` WebSocket handler
on a connection: the replies written to that connection and the client set,
which the loop body never mutates. -/
def wsMessageStepTcp (clients : List Nat) (p : WsParse) : List WsReply × List Nat :=
  (wsHandleTcp p, clients)

/-- One message-processing step of the `pi_websocket_server.py` WebSocket
handler on a connection: the replies written to that connection and the
client set, which the loop body never mutates. -/
def wsMessageStepWs (clients : List Nat) (p : WsParse) : List WsReply × List Nat :=
  (wsHandleWs p, clients)

/-- The `finally` block of both WebSocket handlers:
`WS_CLIENTS.discard(websocket)` — remove the connection if present,
silently do nothing if absent. -/
def setDiscard (s : List Nat) (c : Nat) : List Nat := s.filter (fun x => x != c)

/-! ## Telemetry broadcaster (`broadcast_signal_data`)

Both files' broadcast loops have the same structure (lines 257-278 of
`pi_tcp_server.py`, lines 137-159 of `pi_websocket_server.py`): if the
client set is non-empty, read one measurement (the simulated sampler resp.
`get_vna_reading()`), build one telemetry sample from it, iterate over the
client set sending the sample to every client, collecting into a fresh
`disconnected` set the clients whose send raised, and only after the sweep
apply `WS_CLIENTS.difference_update(disconnected)`; if the set is empty,
skip the read and the sample entirely. `sendOk c` models whether
`client.send` succeeds on client `c` in this cycle. -/

/-- The sweep `for client in WS_CLIENTS: try send except: disconnected.add`:
returns (clients that received the sample, clients marked for removal), in
iteration order. A failed send on one client does not stop the loop. -/
def broadcastSweep (clients : List Nat) (sendOk : Nat → Bool) : List Nat × List Nat :=
  match clients with
  | [] => ([], [])
  | c :: rest =>
    let r := broadcastSweep rest sendOk
    if sendOk c then (c :: r.1, r.2) else (r.1, c :: r.2)

/-- Outcome of one broadcast cycle: how many measurement reads (equally,
telemetry samples) the cycle performed, which clients received the sample,
which were marked for removal during the sweep, and the client set after
the post-sweep `difference_update`. -/
structure CycleResult where
  reads : Nat
  delivered : List Nat
  marked : List Nat
  clients : List Nat
deriving DecidableEq, Repr

/-- One iteration of the `while True` broadcast loop body. -/
def broadcastCycle (clients : List Nat) (sendOk : Nat → Bool) : CycleResult :=
  if clients.isEmpty then ⟨0, [], [], clients⟩
  else
    let sw := broadcastSweep clients sendOk
    ⟨1, sw.1, sw.2, clients.filter (fun c => !sw.2.contains c)⟩

/-- `n` consecutive broadcast cycles (cycle `i` uses send outcome
`sendOk i`); returns the final client set and the total number of
measurement reads performed. -/
def broadcastRun (sendOk : Nat → Nat → Bool) : Nat → List Nat → List Nat × Nat
  | 0, clients => (clients, 0)
  | n + 1, clients =>
    let r := broadcastCycle clients (sendOk n)
    let rest := broadcastRun sendOk n r.clients
    (rest.1, r.reads + rest.2)

/-! ## Helper lemmas -/

lemma run_line_not_keyword {cmd : String} (h : pyStartsWith cmd "RUN " = true) :
    pyUpper cmd ≠ "PING" ∧ pyUpper cmd ≠ "QUIT" ∧ pyUpper cmd ≠ "EXIT" ∧
    pyUpper cmd ≠ "STATUS" := by
  have hp : "RUN ".data <+: cmd.data := by
    simpa [pyStartsWith] using h
  obtain ⟨t, ht⟩ := hp
  have hd : (pyUpper cmd).data = 'R' :: 'U' :: 'N' :: ' ' :: t.map Char.toUpper := by
    show cmd.data.map Char.toUpper = _
    rw [← ht, List.map_append]
    rfl
  refine ⟨?_, ?_, ?_, ?_⟩ <;> intro he <;>
    · have h2 := congrArg String.data he
      rw [hd] at h2
      injection h2 with h2a _
      exact absurd h2a (by decide)

lemma upper_run_not_keyword {cmd : String}
    (h : pyStartsWith (pyUpper cmd) "RUN " = true) :
    pyUpper cmd ≠ "PING" ∧ pyUpper cmd ≠ "QUIT" ∧ pyUpper cmd ≠ "EXIT" ∧
    pyUpper cmd ≠ "STATUS" := by
  refine ⟨?_, ?_, ?_, ?_⟩ <;> intro he <;> rw [he] at h <;> exact absurd h (by decide)

lemma handleLine_unknown {cmd : String} {jobs : Registry}
    {spawn : List String → Except String Nat}
    (h1 : pyUpper cmd ≠ "PING") (h2 : pyUpper cmd ≠ "QUIT")
    (h3 : pyUpper cmd ≠ "EXIT") (h4 : pyUpper cmd ≠ "STATUS")
    (h5 : pyStartsWith cmd "RUN " = false) :
    handleLine cmd jobs spawn = ⟨["ERROR: unknown command"], jobs, .next⟩ := by
  simp [handleLine, h1, h2, h3, h4, h5]

lemma handleLine_run {cmd : String} {jobs : Registry}
    {spawn : List String → Except String Nat}
    (h : pyStartsWith cmd "RUN " = true) :
    handleLine cmd jobs spawn = runCommand (pyStrip (pyDrop cmd 4)) jobs spawn := by
  obtain ⟨h1, h2, h3, h4⟩ := run_line_not_keyword h
  simp [handleLine, h1, h2, h3, h4, h]

lemma handleLine_bare_RUN (jobs : Registry) (spawn : List String → Except String Nat) :
    handleLine "RUN" jobs spawn = ⟨["ERROR: unknown command"], jobs, .next⟩ := by
  have e1 : pyUpper "RUN" = "RUN" := by decide
  unfold handleLine
  rw [e1, if_neg (by decide), if_neg (by decide), if_neg (by decide), if_neg (by decide)]

lemma broadcastSweep_fst (clients : List Nat) (s : Nat → Bool) :
    (broadcastSweep clients s).1 = clients.filter s := by
  induction clients with
  | nil => rfl
  | cons c rest ih =>
    by_cases hc : s c <;> simp [broadcastSweep, hc, ih, List.filter_cons]

lemma broadcastSweep_snd (clients : List Nat) (s : Nat → Bool) :
    (broadcastSweep clients s).2 = clients.filter (fun c => !s c) := by
  induction clients with
  | nil => rfl
  | cons c rest ih =>
    by_cases hc : s c <;> simp [broadcastSweep, hc, ih, List.filter_cons]

lemma broadcastCycle_clients (clients : List Nat) (s : Nat → Bool) :
    (broadcastCycle clients s).clients = clients.filter s := by
  rw [broadcastCycle]
  by_cases h : clients.isEmpty
  · rw [List.isEmpty_iff] at h
    simp [h]
  · simp only [h, Bool.false_eq_true, if_false]
    rw [broadcastSweep_snd]
    apply List.filter_congr
    intro a ha
    by_cases hsa : s a <;> simp [hsa, ha, List.contains]

lemma mem_dictPop {d : Registry} {k : Nat} {p : Nat × String} :
    p ∈ dictPop d k ↔ p ∈ d ∧ p.1 ≠ k := by
  simp [dictPop, List.mem_filter]

lemma mem_foldl_dictPop (ks : List Nat) (d : Registry) (p : Nat × String) :
    p ∈ ks.foldl dictPop d ↔ p ∈ d ∧ p.1 ∉ ks := by
  induction ks generalizing d with
  | nil => simp
  | cons k ks ih =>
    rw [List.foldl_cons, ih, mem_dictPop]
    simp only [List.mem_cons]
    constructor
    · rintro ⟨⟨hd, hne⟩, hks⟩
      exact ⟨hd, by rintro (h | h) <;> [exact hne h; exact hks h]⟩
    · rintro ⟨hd, hall⟩
      exact ⟨⟨hd, fun h => hall (Or.inl h)⟩, fun h => hall (Or.inr h)⟩

/-! ## Claim theorems -/

/-- C1: In every broadcast cycle (both `broadcast_signal_data` loops), a
send failure to a client only marks that client: `marked` is exactly the
set of clients whose send failed, the sweep iterates the unmodified client
set, the marked clients are removed only after the sweep completes (the
resulting set is the original minus exactly the marked clients), and every
client whose send succeeds receives that cycle's sample regardless of
failures to other clients (`delivered` is exactly the succeeding clients). -/
theorem C1_broadcast_failure_isolated (clients : List Nat) (sendOk : Nat → Bool) :
    (broadcastCycle clients sendOk).delivered = clients.filter sendOk ∧
    (broadcastCycle clients sendOk).marked = clients.filter (fun c => !sendOk c) ∧
    (broadcastCycle clients sendOk).clients = clients.filter sendOk := by
  refine ⟨?_, ?_, broadcastCycle_clients clients sendOk⟩ <;>
    rw [broadcastCycle] <;> by_cases h : clients.isEmpty
  · rw [List.isEmpty_iff] at h; simp [h]
  · simp only [h, Bool.false_eq_true, if_false]; exact broadcastSweep_fst clients sendOk
  · rw [List.isEmpty_iff] at h; simp [h]
  · simp only [h, Bool.false_eq_true, if_false]; exact broadcastSweep_snd clients sendOk

/-- C4: One reaper cycle (`reap_jobs`, run once per 1-second interval)
removes from the registry exactly the entries whose process's non-blocking
poll reports an exit status, and keeps exactly the entries whose process is
still running (`poll pid = none`). Hence a STATUS snapshot taken after the
cycle reports no job that had already exited at the cycle's poll, and
every job still running. -/
theorem C4_reap_exact (jobs : Registry) (poll : Nat → Option Int)
    (pid : Nat) (cl : String) :
    (pid, cl) ∈ reapCycle jobs poll ↔ (pid, cl) ∈ jobs ∧ poll pid = none := by
  rw [reapCycle, mem_foldl_dictPop]
  simp only [List.mem_map, List.mem_filter]
  constructor
  · rintro ⟨hmem, hnd⟩
    refine ⟨hmem, ?_⟩
    cases hpoll : poll pid with
    | none => rfl
    | some v =>
      exact absurd ⟨(pid, cl), ⟨hmem, by simp [hpoll]⟩, rfl⟩ hnd
  · rintro ⟨hmem, hnone⟩
    refine ⟨hmem, ?_⟩
    rintro ⟨⟨q, cq⟩, ⟨_, hq⟩, rfl⟩
    simp [hnone] at hq

/-- C7: If the Client Set is empty, the Broadcaster performs no measurement
read and produces no Telemetry Sample, in a single cycle and over an
arbitrary number of consecutive cycles (`broadcastRun` with an empty set
performs zero reads and the set stays empty). -/
theorem C7_broadcast_skip (sendOk : Nat → Nat → Bool) (n : Nat) (s : Nat → Bool) :
    broadcastRun sendOk n [] = ([], 0) ∧ broadcastCycle [] s = ⟨0, [], [], []⟩ := by
  constructor
  · induction n with
    | zero => rfl
    | succ m ih => simp [broadcastRun, broadcastCycle, ih]
  · rfl

/-- C9: Removal of an absent element is a no-op: discarding a connection
that is not in the Client Set leaves the set unchanged (the handlers'
`WS_CLIENTS.discard`), and popping a job id with no entry in the Job
Registry leaves the registry unchanged (the reaper's `JOBS.pop(pid, None)`). -/
theorem C9_idempotent_removal (s : List Nat) (c : Nat) (d : Registry) (k : Nat) :
    (c ∉ s → setDiscard s c = s) ∧ ((∀ v, (k, v) ∉ d) → dictPop d k = d) := by
  constructor
  · intro hc
    apply List.filter_eq_self.mpr
    intro a ha
    simp only [bne_iff_ne, ne_eq]
    rintro rfl
    exact hc ha
  · intro hk
    apply List.filter_eq_self.mpr
    rintro ⟨a, v⟩ ha
    simp only [bne_iff_ne, ne_eq]
    rintro rfl
    exact hk v ha

/-- C9 witness: discarding client 3 from the set `{1, 2}` and popping pid 2
from a registry holding only pid 1 both leave the store unchanged. -/
theorem C9_witness :
    setDiscard [1, 2] 3 = [1, 2] ∧ dictPop [(1, "a")] 2 = [(1, "a")] :=
  ⟨(C9_idempotent_removal [1, 2] 3 [(1, "a")] 2).1 (by decide),
   (C9_idempotent_removal [1, 2] 3 [(1, "a")] 2).2 (by intro v; simp)⟩

/-- C3: `PING` behaves identically across both transports with no side
effects: over TCP any letter case of the line `PING` yields exactly the
line `PONG` with the job registry unchanged and the connection kept open;
over WebSocket the message `{"cmd": "PING"}` yields exactly the frame
`{"response": "PONG"}` on both handlers, with the Client Set unchanged. -/
theorem C3_ping_parity (cmd : String) (jobs : Registry)
    (spawn : List String → Except String Nat) (clients clients' : List Nat) :
    (pyUpper cmd = "PING" → handleLine cmd jobs spawn = ⟨["PONG"], jobs, .next⟩) ∧
    wsMessageStepTcp clients (.obj "PING") = ([.pong], clients) ∧
    wsMessageStepWs clients' (.obj "PING") = ([.pong], clients') ∧
    wsReplyWire .pong = some "\x7b\"response\": \"PONG\"\x7d" := by
  refine ⟨?_, rfl, rfl, rfl⟩
  intro h
  unfold handleLine
  rw [h, if_pos rfl]

/-- C3 witness: the mixed-case TCP line `pInG` gets `PONG` and leaves a
non-empty registry untouched. -/
theorem C3_witness :
    handleLine "pInG" [(3, "x")] (fun _ => .ok 1) = ⟨["PONG"], [(3, "x")], .next⟩ :=
  (C3_ping_parity "pInG" [(3, "x")] (fun _ => .ok 1) [] []).1 (by decide)

/-- C5 counterexample: `websocket_handler` in `pi_tcp_server.py`
(lines 228-237) answers a message that is not valid JSON with nothing at
all — the decode failure lands in the generic `except Exception` branch,
which only logs — so the claimed `{"error": "Invalid JSON"}` reply is not
sent by that gateway. -/
theorem C5_counterexample :
    wsHandleTcp .bad = [] ∧ wsHandleTcp .bad ≠ [.invalidJson] := by decide

/-- C5 amended: on an inbound message that is not valid JSON, the
`pi_websocket_server.py` handler replies `{"error": "Invalid JSON"}` on the
same connection while the `pi_tcp_server.py` WebSocket handler sends no
reply (it only logs); in both handlers no other connection is sent
anything, the Client Set is unchanged, and the connection stays open. -/
theorem C5_amended (clients clients' : List Nat) :
    wsMessageStepWs clients .bad = ([.invalidJson], clients) ∧
    wsReplyWire .invalidJson = some "\x7b\"error\": \"Invalid JSON\"\x7d" ∧
    wsMessageStepTcp clients' .bad = ([], clients') := ⟨rfl, rfl, rfl⟩

/-- C10: The TCP keywords `PING`, `STATUS`, `QUIT`, `EXIT` are matched
case-insensitively (the handler compares `cmd.upper()`), whereas `RUN` is
matched case-sensitively with a mandatory trailing space: any line whose
uppercasing begins with `RUN ` but which does not itself begin with `RUN `
(lowercase or mixed-case `run `) gets `ERROR: unknown command` with no
spawn and no registry change, and the bare word `RUN` likewise. -/
theorem C10_keyword_case (cmd : String) (jobs : Registry)
    (spawn : List String → Except String Nat) :
    (pyUpper cmd = "PING" → handleLine cmd jobs spawn = ⟨["PONG"], jobs, .next⟩) ∧
    (pyUpper cmd = "STATUS" → handleLine cmd jobs spawn = ⟨statusLines jobs, jobs, .next⟩) ∧
    (pyUpper cmd = "QUIT" ∨ pyUpper cmd = "EXIT" →
      handleLine cmd jobs spawn = ⟨["BYE"], jobs, .closed⟩) ∧
    (pyStartsWith (pyUpper cmd) "RUN " = true → pyStartsWith cmd "RUN " = false →
      handleLine cmd jobs spawn = ⟨["ERROR: unknown command"], jobs, .next⟩) ∧
    handleLine "RUN" jobs spawn = ⟨["ERROR: unknown command"], jobs, .next⟩ := by
  refine ⟨?_, ?_, ?_, ?_, handleLine_bare_RUN jobs spawn⟩
  · intro h
    unfold handleLine
    rw [h, if_pos rfl]
  · intro h
    unfold handleLine
    rw [h, if_neg (by decide), if_neg (by decide), if_pos rfl]
  · rintro (h | h) <;>
      · unfold handleLine
        rw [h, if_neg (by decide), if_pos (by decide)]
  · intro h hs
    obtain ⟨h1, h2, h3, h4⟩ := upper_run_not_keyword h
    exact handleLine_unknown h1 h2 h3 h4 hs

/-- C10 witness: `status`, `qUIt` and `eXiT` are recognized in any case;
`run --monitor 977e6` and `Run --x` are rejected as unknown commands. -/
theorem C10_witness :
    handleLine "status" [] (fun _ => .ok 1) = ⟨["NO_JOBS"], [], .next⟩ ∧
    handleLine "qUIt" [] (fun _ => .ok 1) = ⟨["BYE"], [], .closed⟩ ∧
    handleLine "eXiT" [] (fun _ => .ok 1) = ⟨["BYE"], [], .closed⟩ ∧
    handleLine "run --monitor 977e6" [] (fun _ => .ok 1) =
      ⟨["ERROR: unknown command"], [], .next⟩ ∧
    handleLine "Run --x" [] (fun _ => .ok 1) =
      ⟨["ERROR: unknown command"], [], .next⟩ := by
  refine ⟨?_, ?_, ?_, ?_, ?_⟩
  · rw [(C10_keyword_case "status" [] (fun _ => .ok 1)).2.1 (by decide)]; decide
  · exact (C10_keyword_case "qUIt" [] (fun _ => .ok 1)).2.2.1 (Or.inl (by decide))
  · exact (C10_keyword_case "eXiT" [] (fun _ => .ok 1)).2.2.1 (Or.inr (by decide))
  · exact (C10_keyword_case "run --monitor 977e6" [] (fun _ => .ok 1)).2.2.2.1
      (by decide) (by decide)
  · exact (C10_keyword_case "Run --x" [] (fun _ => .ok 1)).2.2.2.1
      (by decide) (by decide)

lemma ne_empty_of_run {cmd : String} (h : pyStartsWith cmd "RUN " = true) :
    ¬(cmd = "") := by
  intro e; rw [e] at h; exact absurd h (by decide)

lemma handleLine_crash {cmd : String} {jobs : Registry}
    {spawn : List String → Except String Nat}
    (h1 : pyStartsWith cmd "RUN " = true)
    (h2 : pyStrip (pyDrop cmd 4) ≠ "")
    (h3 : shlexSplit (pyStrip (pyDrop cmd 4)) = none) :
    handleLine cmd jobs spawn = ⟨[], jobs, .crashed⟩ := by
  rw [handleLine_run h1]
  simp [runCommand, h2, h3]

lemma handleLine_spawn_error {cmd : String} {jobs : Registry}
    {spawn : List String → Except String Nat} {parts : List String} {exc : String}
    (h1 : pyStartsWith cmd "RUN " = true)
    (h2 : pyStrip (pyDrop cmd 4) ≠ "")
    (h3 : shlexSplit (pyStrip (pyDrop cmd 4)) = some parts)
    (h4 : spawn (["python3", "scripts/znle_pyvisa.py"] ++ parts) = .error exc) :
    handleLine cmd jobs spawn = ⟨["ERROR: failed to start: " ++ exc], jobs, .next⟩ := by
  rw [handleLine_run h1]
  have h4x : spawn ("python3" :: "scripts/znle_pyvisa.py" :: parts) = .error exc := h4
  simp [runCommand, h2, h3, h4x]

/-- C2 counterexample: the line `RUN "abc` carries an unbalanced quote; the
handler writes no response at all (in particular no error response), and
the uncaught `ValueError` from `shlex.split` aborts the connection loop, so
a following `PING` line on the same connection is never processed — the
connection does not stay open. The registry is unchanged. -/
theorem C2_counterexample :
    handleLine "RUN \"abc" [] (fun _ => .ok 7) = ⟨[], [], .crashed⟩ ∧
    connLoop (fun _ => .ok 7) ["RUN \"abc", "PING"] [] = ([], []) := by decide

/-- C2 amended: tokenization respects shell quoting (`"a b" c` splits into
`a b` and `c`, the quoted embedded space surviving, and those tokens are
what a successful `RUN` passes to the spawned process); the detected
protocol errors — missing `RUN` arguments and unknown commands — are
reported only to the originating connection with no registry change and
the connection stays open; but a `RUN` line whose argument string has an
unbalanced quote is answered with nothing at all: the registry is
unchanged, no error response is sent, and the uncaught tokenization error
terminates the connection loop, so subsequent lines are not processed. -/
theorem C2_amended (cmd : String) (jobs : Registry)
    (spawn : List String → Except String Nat) (rest : List String) :
    (shlexSplit "\"a b\" c" = some ["a b", "c"]) ∧
    (pyStartsWith cmd "RUN " = true → pyStrip (pyDrop cmd 4) ≠ "" →
      shlexSplit (pyStrip (pyDrop cmd 4)) = none →
      handleLine cmd jobs spawn = ⟨[], jobs, .crashed⟩ ∧
      (pyStrip cmd = cmd → connLoop spawn (cmd :: rest) jobs = ([], jobs))) ∧
    (pyStartsWith cmd "RUN " = true → pyStrip (pyDrop cmd 4) = "" →
      handleLine cmd jobs spawn = ⟨["ERROR: missing args"], jobs, .next⟩) ∧
    (pyUpper cmd ≠ "PING" → pyUpper cmd ≠ "QUIT" → pyUpper cmd ≠ "EXIT" →
      pyUpper cmd ≠ "STATUS" → pyStartsWith cmd "RUN " = false →
      handleLine cmd jobs spawn = ⟨["ERROR: unknown command"], jobs, .next⟩) := by
  refine ⟨by decide, ?_, ?_, ?_⟩
  · intro h1 h2 h3
    refine ⟨handleLine_crash h1 h2 h3, ?_⟩
    intro h0
    simp [connLoop, h0, ne_empty_of_run h1, handleLine_crash h1 h2 h3]
  · intro h1 h2
    rw [handleLine_run h1]
    simp [runCommand, h2]
  · intro h1 h2 h3 h4 h5
    exact handleLine_unknown h1 h2 h3 h4 h5

/-- C2 amended witness: `RUN "a b` (unbalanced quote) crashes the loop with
no response and no registry change, dropping the following `PING`; `RUN `
(empty argument string) gets the missing-args error; `FOO` gets the
unknown-command error. -/
theorem C2_amended_witness :
    connLoop (fun _ => .ok 7) ["RUN \"a b", "PING"] [(5, "j")] = ([], [(5, "j")]) ∧
    handleLine "RUN " [(5, "j")] (fun _ => .ok 7) =
      ⟨["ERROR: missing args"], [(5, "j")], .next⟩ ∧
    handleLine "FOO" [(5, "j")] (fun _ => .ok 7) =
      ⟨["ERROR: unknown command"], [(5, "j")], .next⟩ :=
  ⟨((C2_amended "RUN \"a b" [(5, "j")] (fun _ => .ok 7) ["PING"]).2.1
      (by decide) (by decide) (by decide)).2 (by decide),
   (C2_amended "RUN " [(5, "j")] (fun _ => .ok 7) []).2.2.1 (by decide) (by decide),
   (C2_amended "FOO" [(5, "j")] (fun _ => .ok 7) []).2.2.2
      (by decide) (by decide) (by decide) (by decide) (by decide)⟩

/-- C6: If the spawn of a `RUN` command's subprocess raises (for any cause
string), the originating connection receives exactly the line
`ERROR: failed to start: <cause>`, the job registry is unchanged (no Job
record is added), and processing of subsequent lines on that connection
continues. -/
theorem C6_spawn_failure (cmd : String) (jobs : Registry)
    (spawn : List String → Except String Nat) (parts : List String)
    (exc : String) (rest : List String)
    (h1 : pyStartsWith cmd "RUN " = true)
    (h2 : pyStrip (pyDrop cmd 4) ≠ "")
    (h3 : shlexSplit (pyStrip (pyDrop cmd 4)) = some parts)
    (h4 : spawn (["python3", "scripts/znle_pyvisa.py"] ++ parts) = .error exc) :
    handleLine cmd jobs spawn =
      ⟨["ERROR: failed to start: " ++ exc], jobs, .next⟩ ∧
    (pyStrip cmd = cmd → connLoop spawn (cmd :: rest) jobs =
      (("ERROR: failed to start: " ++ exc) :: (connLoop spawn rest jobs).1,
       (connLoop spawn rest jobs).2)) := by
  refine ⟨handleLine_spawn_error h1 h2 h3 h4, ?_⟩
  intro h0
  simp [connLoop, h0, ne_empty_of_run h1, handleLine_spawn_error h1 h2 h3 h4]

/-- C6 witness: with a spawner that raises with cause `boom`, the line
`RUN --monitor 977e6` gets `ERROR: failed to start: boom`, the registry
stays empty, and a following `PING` is still answered with `PONG`. -/
theorem C6_witness :
    handleLine "RUN --monitor 977e6" [] (fun _ => .error "boom") =
      ⟨["ERROR: failed to start: boom"], [], .next⟩ ∧
    connLoop (fun _ => .error "boom") ["RUN --monitor 977e6", "PING"] [] =
      (["ERROR: failed to start: boom", "PONG"], []) := by
  refine ⟨(C6_spawn_failure "RUN --monitor 977e6" [] (fun _ => .error "boom")
    ["--monitor", "977e6"] "boom" [] (by decide) (by decide) (by decide) rfl).1, ?_⟩
  rw [(C6_spawn_failure "RUN --monitor 977e6" [] (fun _ => .error "boom")
    ["--monitor", "977e6"] "boom" ["PING"] (by decide) (by decide) (by decide) rfl).2
    (by decide)]
  decide

/-- C8: A TCP `RUN` command whose argument string is empty after trimming
is rejected with the explicit error `ERROR: missing args`; the bare word
`RUN` (no trailing space) is rejected with `ERROR: unknown command` (so
after line stripping, any line reducing to `RUN` is rejected and the rest
of the connection continues); in all these cases the result does not
depend on the spawner at all (no subprocess is launched) and no Job record
is created. -/
theorem C8_empty_run_rejected (cmd : String) (jobs : Registry)
    (spawn spawn' : List String → Except String Nat) (rest : List String) :
    (pyStartsWith cmd "RUN " = true → pyStrip (pyDrop cmd 4) = "" →
      handleLine cmd jobs spawn = ⟨["ERROR: missing args"], jobs, .next⟩ ∧
      handleLine cmd jobs spawn = handleLine cmd jobs spawn') ∧
    handleLine "RUN" jobs spawn = ⟨["ERROR: unknown command"], jobs, .next⟩ ∧
    (pyStrip cmd = "RUN" → connLoop spawn (cmd :: rest) jobs =
      ("ERROR: unknown command" :: (connLoop spawn rest jobs).1,
       (connLoop spawn rest jobs).2)) := by
  refine ⟨?_, handleLine_bare_RUN jobs spawn, ?_⟩
  · intro h1 h2
    have hx : ∀ sp : List String → Except String Nat,
        handleLine cmd jobs sp = ⟨["ERROR: missing args"], jobs, .next⟩ := by
      intro sp
      rw [handleLine_run h1]
      simp [runCommand, h2]
    rw [hx spawn, hx spawn']
    exact ⟨rfl, rfl⟩
  · intro h0
    simp [connLoop, h0, handleLine_bare_RUN]

/-- C8 witness: the line `RUN ` (arguments empty after trimming) gets
`ERROR: missing args`; the raw line `  RUN  ` strips to the bare `RUN`,
gets `ERROR: unknown command`, and the following `PING` still gets
`PONG` — with no registry change in either case. -/
theorem C8_witness :
    handleLine "RUN " [] (fun _ => .ok 5) = ⟨["ERROR: missing args"], [], .next⟩ ∧
    connLoop (fun _ => .ok 5) ["  RUN  ", "PING"] [] =
      (["ERROR: unknown command", "PONG"], []) := by
  refine ⟨((C8_empty_run_rejected "RUN " [] (fun _ => .ok 5) (fun _ => .ok 5) []).1
    (by decide) (by decide)).1, ?_⟩
  rw [(C8_empty_run_rejected "  RUN  " [] (fun _ => .ok 5) (fun _ => .ok 5)
    ["PING"]).2.2 (by decide)]
  decide
